import Mathlib

/-!
Verification of the go.d.plugin collector-module core (wmi, ntpd, nvidia_smi):
the entity registry / chart synchronizer, the collection-cycle controller and
the module lifecycle wrappers (`Init`, `Check`, `Collect`, `Cleanup`).

Snapshots (`map[string]int64`) are embedded as association lists
`List (String × Int)`; Go `nil` maps/pointers are `Option`; Go strings that we
must split character-wise are embedded as `List Char`.
-/

namespace GoD

/-- A chart definition as held in the module's Chart Set: a chart id plus the
dimension ids and variable ids it declares (`module.Chart` in the agent). -/
structure ChartDef where
  id : String
  dims : List String
  vars : List String
deriving DecidableEq, Repr

/-- The per-entity-class synchronizer state: the Entity Registry (the
`cache` field of the `WMI` struct, one `map[string]bool` per entity class,
here the list of ids already materialized) together with the Chart Set
(`charts *module.Charts`) the synchronizer mutates. -/
structure SyncState where
  registry : List String
  charts : List ChartDef
deriving DecidableEq, Repr

/-- The state at module construction: `New()` makes every cache map empty
via `make(map[string]bool)` and points `charts` at a fresh empty chart
collection. -/
def initialState : SyncState := ⟨[], []⟩

/-- Modelled from the spec: one step of the Chart Synchronizer
(`sync(entityClass, seenIDs)`, §4.2) for a single seen id.  The code that
performs this for the wmi module is not under `src/` (only its `cache`
declaration and its tests are): per the spec, an id not already materialized
has its entity class's chart template instantiated, the resulting charts are
added to the Chart Set and the id is recorded in the Entity Registry; an id
already materialized is skipped. -/
def syncStep (tmpl : String → List ChartDef) (st : SyncState) (id : String) : SyncState :=
  if id ∈ st.registry then st
  else { registry := st.registry ++ [id], charts := st.charts ++ tmpl id }

/-- Modelled from the spec: the Chart Synchronizer run over a cycle's whole
seen-set for one entity class (§4.2 `sync`). -/
def sync (tmpl : String → List ChartDef) (seen : List String) (st : SyncState) : SyncState :=
  seen.foldl (syncStep tmpl) st

/-- Modelled from the spec: consecutive collection cycles, each running the
synchronizer on that cycle's seen-set (§4.3). -/
def syncCycles (tmpl : String → List ChartDef) (cycles : List (List String))
    (st : SyncState) : SyncState :=
  cycles.foldl (fun s seen => sync tmpl seen s) st

/-- Modelled from the spec: the metric ids the Snapshot Normalizer emits for
one cycle, for one entity class (§4.1): for every entity id seen this cycle it
emits exactly the per-entity metric ids that the class's chart template
declares as dimensions and variables (the template's metric ids are built from
the same prefix/entity-id/suffix scheme the normalizer uses). -/
def snapshotKeys (tmpl : String → List ChartDef) (seen : List String) : List String :=
  seen.flatMap (fun id => (tmpl id).flatMap (fun c => c.dims ++ c.vars))

/-- Transport-level failures of the Sample Source (§7 `TransportError`). -/
inductive TransportError
  | connRefused
  | timeout
  | badStatus (code : Nat)
deriving DecidableEq, Repr

/-- Payload-level failure of the Snapshot Normalizer (§7 `ErrBadPayload`). -/
inductive PayloadError
  | badPayload
deriving DecidableEq, Repr

/-- Modelled from the spec: the Collection Cycle Controller (`w.collect()`,
§4.3; the wmi `collect.go` is not under `src/`).  It invokes the Sample
Source (`fetch`); on transport failure it returns no snapshot and leaves the
state untouched; it feeds the raw bytes to the Normalizer (`parse`); on
`ErrBadPayload` it returns no snapshot and leaves the state untouched;
otherwise it runs the Chart Synchronizer on the seen-set the Normalizer
recorded and returns the completed snapshot (`nil` when empty, as the public
`Collect` wrapper in `src` does). -/
def collectCycle (tmpl : String → List ChartDef)
    (fetch : Except TransportError (List Char))
    (parse : List Char → Except PayloadError (List String × List (String × Int)))
    (st : SyncState) : Option (List (String × Int)) × SyncState :=
  match fetch with
  | .error _ => (none, st)
  | .ok raw =>
    match parse raw with
    | .error _ => (none, st)
    | .ok (seen, mx) => (if mx.length = 0 then none else some mx, sync tmpl seen st)

/-- Go's `len` on a possibly-`nil` map: `len(nil) = 0`. -/
def goLen (o : Option (List (String × Int))) : Nat :=
  o.elim 0 List.length

/-- `WMI.Collect` from `src/unnamed/part_000` lines 115–125, parametrized by
the result `(ms, err)` of the internal `w.collect()`: the error is only
logged; if `len(ms) == 0` the wrapper returns `nil`, otherwise it returns
`ms`. -/
def wmiCollect (ms : List (String × Int)) (err : Option String) :
    Option (List (String × Int)) :=
  let _ := err
  if ms.length = 0 then none else some ms

/-- `WMI.Check` from `src/unnamed/part_000` lines 107–109:
`len(w.Collect()) > 0`. -/
def wmiCheck (ms : List (String × Int)) (err : Option String) : Bool :=
  decide (0 < goLen (wmiCollect ms err))

/-- `NTPd.Collect` from `src/modules/ntpd/ntpd.go` lines 78–88 (same shape as
`WMI.Collect`), parametrized by the internal `n.collect()` result. -/
def ntpdCollect (ms : List (String × Int)) (err : Option String) :
    Option (List (String × Int)) :=
  let _ := err
  if ms.length = 0 then none else some ms

/-- `NTPd.Check` from `src/modules/ntpd/ntpd.go` lines 70–72:
`len(n.Collect()) > 0`. -/
def ntpdCheck (ms : List (String × Int)) (err : Option String) : Bool :=
  decide (0 < goLen (ntpdCollect ms err))

/-- `NvidiaSMI.Collect` from `src/modules/nvidia_smi/nvidia_smi.go` lines
83–93, parametrized by the internal `nv.collect()` result. -/
def nvCollect (ms : List (String × Int)) (err : Option String) :
    Option (List (String × Int)) :=
  let _ := err
  if ms.length = 0 then none else some ms

/-- `NvidiaSMI.Check` from `src/modules/nvidia_smi/nvidia_smi.go` lines
75–77: `len(nv.Collect()) > 0`. -/
def nvCheck (ms : List (String × Int)) (err : Option String) : Bool :=
  decide (0 < goLen (nvCollect ms err))

/-- The part of the WMI module config its `Init` validates: the request URL
(`web.HTTP.Request.URL`). -/
structure WMIConfig where
  url : String
deriving DecidableEq, Repr

/-- The config `New()` builds (`src/unnamed/part_000` lines 23–48): only
the client timeout is set, so the request URL is the zero value `""`. -/
def wmiDefaultConfig : WMIConfig := ⟨""⟩

/-- `WMI.Init` from `src/unnamed/part_000` lines 84–105.  Modelled from the
spec for the parts not under `src/`: `validateConfig` (a `ConfigError`, §7,
when the required URL is missing, as `TestWMI_Init` fixes: fails iff the URL
is unset), and `initHTTPClient` / `initPrometheusClient`, which the spec
treats as consuming already-validated values and which succeed on a validated
config. -/
def wmiInit (cfg : WMIConfig) : Bool :=
  cfg.url != ""

/-- The NTPd module config (`src/modules/ntpd/ntpd.go` lines 32–36). -/
structure NTPdConfig where
  address : String
  timeoutSeconds : Nat
  collectPeers : Bool
deriving DecidableEq, Repr

/-- The config `New()` builds for NTPd (`src/modules/ntpd/ntpd.go` lines
18–30). -/
def ntpdDefaultConfig : NTPdConfig := ⟨"127.0.0.1:123", 3, true⟩

/-- `NTPd.Init` from `src/modules/ntpd/ntpd.go` lines 61–68: fails exactly
when `n.Address == ""`. -/
def ntpdInit (cfg : NTPdConfig) : Bool :=
  cfg.address != ""

/-- A Go runtime panic, here the one relevant to `Cleanup`: calling a method
through a nil pointer. -/
inductive GoPanic
  | nilDeref
deriving DecidableEq, Repr

/-- The runtime fields of the `WMI` struct that `Cleanup` touches: the
`httpClient *http.Client` pointer, `nil` until `Init` sets it. -/
structure WMIRuntime where
  httpClient : Option Unit
deriving DecidableEq, Repr

/-- `New()` leaves `httpClient` nil (`src/unnamed/part_000` lines 23–48). -/
def wmiNewRuntime : WMIRuntime := ⟨none⟩

/-- A call of `CloseIdleConnections` on a possibly-nil `*http.Client`:
on a nil receiver it panics, otherwise it closes idle connections (a pure
no-op in this model). -/
def callCloseIdle (c : Option Unit) : Except GoPanic Unit :=
  match c with
  | none => .error .nilDeref
  | some _ => .ok ()

/-- `WMI.Cleanup` from `src/unnamed/part_000` lines 127–131: it calls
`CloseIdleConnections` only under the guard `w.httpClient != nil`. -/
def wmiCleanup (s : WMIRuntime) : Except GoPanic WMIRuntime :=
  if s.httpClient.isSome then do
    let _ ← callCloseIdle s.httpClient
    pure s
  else pure s

/-- The runtime fields of the `NTPd` struct that `Cleanup` touches: the
`client ntpConn`, `nil` until the first collect dials. -/
structure NTPdRuntime where
  client : Option Unit
deriving DecidableEq, Repr

/-- `New()` leaves `client` nil (`src/modules/ntpd/ntpd.go` lines 18–30). -/
def ntpdNewRuntime : NTPdRuntime := ⟨none⟩

/-- A call of `close()` on a possibly-nil `ntpConn`: on a nil connection it
panics, otherwise it closes the connection. -/
def callNtpClose (c : Option Unit) : Except GoPanic Unit :=
  match c with
  | none => .error .nilDeref
  | some _ => .ok ()

/-- `NTPd.Cleanup` from `src/modules/ntpd/ntpd.go` lines 90–95: under the
guard `n.client != nil` it calls `n.client.close()` and then sets
`n.client = nil`. -/
def ntpdCleanup (s : NTPdRuntime) : Except GoPanic NTPdRuntime :=
  if s.client.isSome then do
    let _ ← callNtpClose s.client
    pure { s with client := none }
  else pure s

/-- Modelled from the spec (§9): the composite mssql `instance:database`
EntityID is built by joining the two identifiers with `:`, with no rejection
or escaping of identifiers containing the separator ("the source handles this
by naive splitting").  Strings are embedded as `List Char`. -/
def mssqlDBKey (inst db : List Char) : List Char :=
  inst ++ ':' :: db

/-- A minimal concrete chart template used for concrete runs: one chart per
entity id, with the entity id itself as the only dimension metric id. -/
def oneDimTmpl : String → List ChartDef :=
  fun id => [⟨id, [id], []⟩]

/-- Every chart in the Chart Set was instantiated from the template of some
id present in the Entity Registry. -/
def ChartsFromRegistry (tmpl : String → List ChartDef) (st : SyncState) : Prop :=
  ∀ c ∈ st.charts, ∃ id ∈ st.registry, c ∈ tmpl id

/-- Every id in the Entity Registry has all of its template's charts present
in the Chart Set. -/
def RegistryCharted (tmpl : String → List ChartDef) (st : SyncState) : Prop :=
  ∀ id ∈ st.registry, ∀ c ∈ tmpl id, c ∈ st.charts

/- Basic unfolding lemmas for the synchronizer fold. -/

theorem sync_nil (tmpl : String → List ChartDef) (st : SyncState) :
    sync tmpl [] st = st := rfl

theorem sync_cons (tmpl : String → List ChartDef) (a : String) (as : List String)
    (st : SyncState) : sync tmpl (a :: as) st = sync tmpl as (syncStep tmpl st a) := rfl

theorem syncCycles_nil (tmpl : String → List ChartDef) (st : SyncState) :
    syncCycles tmpl [] st = st := rfl

theorem syncCycles_cons (tmpl : String → List ChartDef) (s : List String)
    (cs : List (List String)) (st : SyncState) :
    syncCycles tmpl (s :: cs) st = syncCycles tmpl cs (sync tmpl s st) := rfl

theorem syncStep_eq_of_mem {tmpl : String → List ChartDef} {st : SyncState} {id : String}
    (h : id ∈ st.registry) : syncStep tmpl st id = st := by
  simp [syncStep, h]

theorem registry_syncStep_mono {tmpl : String → List ChartDef} {st : SyncState}
    {id x : String} (h : x ∈ st.registry) : x ∈ (syncStep tmpl st id).registry := by
  unfold syncStep
  split
  · exact h
  · simp [h]

theorem mem_registry_syncStep {tmpl : String → List ChartDef} {st : SyncState}
    {id : String} : id ∈ (syncStep tmpl st id).registry := by
  unfold syncStep
  split
  · assumption
  · simp

theorem registry_sync_mono {tmpl : String → List ChartDef} {seen : List String}
    {st : SyncState} {x : String} (h : x ∈ st.registry) :
    x ∈ (sync tmpl seen st).registry := by
  induction seen generalizing st with
  | nil => exact h
  | cons a as ih => exact ih (registry_syncStep_mono h)

theorem mem_registry_sync_of_seen {tmpl : String → List ChartDef} {seen : List String}
    {st : SyncState} {id : String} (h : id ∈ seen) :
    id ∈ (sync tmpl seen st).registry := by
  induction seen generalizing st with
  | nil => cases h
  | cons a as ih =>
    rw [sync_cons]
    rcases List.mem_cons.mp h with rfl | h'
    · exact registry_sync_mono mem_registry_syncStep
    · exact ih h'

theorem sync_eq_of_registry_covers {tmpl : String → List ChartDef} {seen : List String}
    {st : SyncState} (h : ∀ id ∈ seen, id ∈ st.registry) :
    sync tmpl seen st = st := by
  induction seen with
  | nil => rfl
  | cons a as ih =>
    rw [sync_cons, syncStep_eq_of_mem (h a (by simp))]
    exact ih fun id hid => h id (by simp [hid])

theorem mem_registry_sync_iff {tmpl : String → List ChartDef} {seen : List String}
    {st : SyncState} {x : String} :
    x ∈ (sync tmpl seen st).registry ↔ x ∈ st.registry ∨ x ∈ seen := by
  induction seen generalizing st with
  | nil => simp [sync_nil]
  | cons a as ih =>
    rw [sync_cons, ih]
    unfold syncStep
    split
    · rename_i hmem
      simp only [List.mem_cons]
      constructor
      · rintro (h1 | h2)
        · exact Or.inl h1
        · exact Or.inr (Or.inr h2)
      · rintro (h1 | rfl | h2)
        · exact Or.inl h1
        · exact Or.inl hmem
        · exact Or.inr h2
    · simp only [List.mem_append, List.mem_singleton, List.mem_cons]
      tauto

theorem mem_registry_syncCycles_iff {tmpl : String → List ChartDef}
    {cycles : List (List String)} {st : SyncState} {x : String} :
    x ∈ (syncCycles tmpl cycles st).registry ↔
      x ∈ st.registry ∨ ∃ s ∈ cycles, x ∈ s := by
  induction cycles generalizing st with
  | nil => simp [syncCycles_nil]
  | cons a as ih =>
    rw [syncCycles_cons, ih, mem_registry_sync_iff]
    simp only [List.mem_cons]
    constructor
    · rintro ((h1 | h1) | ⟨s, hs, hx⟩)
      · exact Or.inl h1
      · exact Or.inr ⟨a, Or.inl rfl, h1⟩
      · exact Or.inr ⟨s, Or.inr hs, hx⟩
    · rintro (h1 | ⟨s, (rfl | hs), hx⟩)
      · exact Or.inl (Or.inl h1)
      · exact Or.inl (Or.inr hx)
      · exact Or.inr ⟨s, hs, hx⟩

theorem chartsFromRegistry_syncStep {tmpl : String → List ChartDef} {st : SyncState}
    {id : String} (h : ChartsFromRegistry tmpl st) :
    ChartsFromRegistry tmpl (syncStep tmpl st id) := by
  unfold syncStep
  split
  · exact h
  · intro c hc
    rcases List.mem_append.mp hc with hc | hc
    · obtain ⟨j, hj, hcj⟩ := h c hc
      exact ⟨j, List.mem_append_left _ hj, hcj⟩
    · exact ⟨id, List.mem_append_right _ (by simp), hc⟩

theorem chartsFromRegistry_sync {tmpl : String → List ChartDef} {seen : List String}
    {st : SyncState} (h : ChartsFromRegistry tmpl st) :
    ChartsFromRegistry tmpl (sync tmpl seen st) := by
  induction seen generalizing st with
  | nil => exact h
  | cons a as ih => exact ih (chartsFromRegistry_syncStep h)

theorem chartsFromRegistry_syncCycles {tmpl : String → List ChartDef}
    {cycles : List (List String)} {st : SyncState} (h : ChartsFromRegistry tmpl st) :
    ChartsFromRegistry tmpl (syncCycles tmpl cycles st) := by
  induction cycles generalizing st with
  | nil => exact h
  | cons a as ih => exact ih (chartsFromRegistry_sync h)

theorem chartsFromRegistry_initial {tmpl : String → List ChartDef} :
    ChartsFromRegistry tmpl initialState := by
  intro c hc
  cases hc

theorem registryCharted_syncStep {tmpl : String → List ChartDef} {st : SyncState}
    {id : String} (h : RegistryCharted tmpl st) :
    RegistryCharted tmpl (syncStep tmpl st id) := by
  unfold syncStep
  split
  · exact h
  · intro j hj c hc
    rcases List.mem_append.mp hj with hj | hj
    · exact List.mem_append_left _ (h j hj c hc)
    · rw [List.mem_singleton.mp hj] at hc
      exact List.mem_append_right _ hc

theorem registryCharted_sync {tmpl : String → List ChartDef} {seen : List String}
    {st : SyncState} (h : RegistryCharted tmpl st) :
    RegistryCharted tmpl (sync tmpl seen st) := by
  induction seen generalizing st with
  | nil => exact h
  | cons a as ih => exact ih (registryCharted_syncStep h)

theorem registryCharted_syncCycles {tmpl : String → List ChartDef}
    {cycles : List (List String)} {st : SyncState} (h : RegistryCharted tmpl st) :
    RegistryCharted tmpl (syncCycles tmpl cycles st) := by
  induction cycles generalizing st with
  | nil => exact h
  | cons a as ih => exact ih (registryCharted_sync h)

theorem registryCharted_initial {tmpl : String → List ChartDef} :
    RegistryCharted tmpl initialState := by
  intro id hid
  cases hid

/-- Claim C1, as stated, is false: after a successful cycle whose seen-set no
longer contains a previously materialized entity, the entity's chart persists
in the Chart Set (charts are never removed) while its dimension ids are
absent from that cycle's Snapshot.  Concretely: cycle 1 sees entity `C`,
cycle 2 sees only entity `D`; after cycle 2 the chart for `C` is still
present but its dimension id `C` is not a key of cycle 2's snapshot. -/
theorem dimension_coverage_counterexample :
    ¬ (∀ c ∈ (sync oneDimTmpl ["D"] (sync oneDimTmpl ["C"] initialState)).charts,
        ∀ d ∈ c.dims ++ c.vars, d ∈ snapshotKeys oneDimTmpl ["D"]) := by
  decide

/-- Claim C1 (amended): after a successful cycle in whose seen-set every
previously materialized entity id still appears (in particular after the
first cycle from a fresh module), every dimension id and variable id declared
by any chart present in the Chart Set exists as a key in that cycle's
Snapshot. -/
theorem dimension_coverage_no_vanished (tmpl : String → List ChartDef)
    (cycles : List (List String)) (seen : List String)
    (h : ∀ id ∈ (syncCycles tmpl cycles initialState).registry, id ∈ seen) :
    ∀ c ∈ (sync tmpl seen (syncCycles tmpl cycles initialState)).charts,
      ∀ d ∈ c.dims ++ c.vars, d ∈ snapshotKeys tmpl seen := by
  intro c hc d hd
  obtain ⟨id, hid, hcid⟩ :=
    chartsFromRegistry_sync (chartsFromRegistry_syncCycles chartsFromRegistry_initial) c hc
  have hseen : id ∈ seen := by
    rcases mem_registry_sync_iff.mp hid with h1 | h1
    · exact h id h1
    · exact h1
  exact List.mem_flatMap.mpr ⟨id, hseen, List.mem_flatMap.mpr ⟨c, hcid, hd⟩⟩

/-- Witness for C1 (amended) at a concrete input: one prior cycle that saw
`C`, and a current cycle that sees `C` and `D`. -/
theorem dimension_coverage_no_vanished_witness :
    (∀ id ∈ (syncCycles oneDimTmpl [["C"]] initialState).registry, id ∈ ["C", "D"]) ∧
    (∀ c ∈ (sync oneDimTmpl ["C", "D"] (syncCycles oneDimTmpl [["C"]] initialState)).charts,
      ∀ d ∈ c.dims ++ c.vars, d ∈ snapshotKeys oneDimTmpl ["C", "D"]) :=
  ⟨by decide, dimension_coverage_no_vanished oneDimTmpl [["C"]] ["C", "D"] (by decide)⟩

/-- Claim C2: if the Sample Source fails (connection refused, timeout,
non-2xx status) or the Normalizer fails (unparseable payload), the collection
cycle returns no snapshot and leaves the Entity Registry and the Chart Set
exactly as they were before the call. -/
theorem collect_failfast (tmpl : String → List ChartDef)
    (fetch : Except TransportError (List Char))
    (parse : List Char → Except PayloadError (List String × List (String × Int)))
    (st : SyncState)
    (h : (∃ e, fetch = .error e) ∨ ∃ raw e, fetch = .ok raw ∧ parse raw = .error e) :
    collectCycle tmpl fetch parse st = (none, st) := by
  rcases h with ⟨e, rfl⟩ | ⟨raw, e, rfl, hp⟩
  · rfl
  · simp [collectCycle, hp]

/-- Witness for C2 at a concrete input: a connection-refused transport
failure against the fresh module state. -/
theorem collect_failfast_witness :
    ((∃ e, (Except.error TransportError.connRefused : Except TransportError (List Char))
        = .error e) ∨
      ∃ raw e, (Except.error TransportError.connRefused : Except TransportError (List Char))
        = .ok raw ∧
        (fun _ : List Char =>
          (Except.ok ([], []) : Except PayloadError (List String × List (String × Int)))) raw
        = .error e) ∧
    collectCycle oneDimTmpl (Except.error TransportError.connRefused)
      (fun _ => Except.ok ([], [])) initialState = (none, initialState) :=
  ⟨Or.inl ⟨_, rfl⟩, collect_failfast _ _ _ _ (Or.inl ⟨_, rfl⟩)⟩

/-- Claim C3: running the chart synchronizer a second time with an identical
seen-set, within a cycle or across cycles, is a no-op: the Chart Set gains no
duplicate charts and the Entity Registry is unchanged (the registry lookup
short-circuits re-instantiation). -/
theorem sync_twice_noop (tmpl : String → List ChartDef) (seen : List String)
    (st : SyncState) : sync tmpl seen (sync tmpl seen st) = sync tmpl seen st :=
  sync_eq_of_registry_covers fun _ hid => mem_registry_sync_of_seen hid

/-- Claim C4: across consecutive cycles whose seen-sets form a chain
S1 ⊆ S2 ⊆ … ⊆ SN, the Entity Registry after the first k cycles contains
exactly the ids of S1 ∪ … ∪ Sk, and an id once added never disappears from
the registry in a later cycle. -/
theorem registry_monotone_union (tmpl : String → List ChartDef)
    (cycles : List (List String))
    (_hchain : List.Chain' (fun s t => ∀ x ∈ s, x ∈ t) cycles) :
    (∀ k x, x ∈ (syncCycles tmpl (cycles.take k) initialState).registry ↔
        ∃ s ∈ cycles.take k, x ∈ s) ∧
    (∀ k x, x ∈ (syncCycles tmpl (cycles.take k) initialState).registry →
        x ∈ (syncCycles tmpl cycles initialState).registry) := by
  constructor
  · intro k x
    rw [mem_registry_syncCycles_iff]
    simp [initialState]
  · intro k x hx
    rw [mem_registry_syncCycles_iff] at hx ⊢
    rcases hx with h1 | ⟨s, hs, hxs⟩
    · exact Or.inl h1
    · exact Or.inr ⟨s, List.take_subset _ _ hs, hxs⟩

/-- Witness for C4 at a concrete input: the chain of seen-sets
`[a] ⊆ [a, b]`. -/
theorem registry_monotone_union_witness :
    List.Chain' (fun s t => ∀ x ∈ s, x ∈ t) [["a"], ["a", "b"]] ∧
    ((∀ k x, x ∈ (syncCycles oneDimTmpl ([["a"], ["a", "b"]].take k) initialState).registry ↔
        ∃ s ∈ [["a"], ["a", "b"]].take k, x ∈ s) ∧
      (∀ k x, x ∈ (syncCycles oneDimTmpl ([["a"], ["a", "b"]].take k) initialState).registry →
        x ∈ (syncCycles oneDimTmpl [["a"], ["a", "b"]] initialState).registry)) :=
  ⟨by simp [List.chain'_cons],
   registry_monotone_union oneDimTmpl [["a"], ["a", "b"]] (by simp [List.chain'_cons])⟩

/-- Claim C5: for each of the WMI, NTPd and NvidiaSMI modules, `Check()` is
true exactly when `Collect()` returns a non-empty metric map, and an empty or
failed internal collection yields `nil` (absent), never an empty map. -/
theorem check_iff_nonempty_snapshot (ms : List (String × Int)) (err : Option String) :
    ((wmiCheck ms err = true ↔ ∃ m, wmiCollect ms err = some m ∧ m ≠ []) ∧
      (wmiCollect ms err = none ↔ ms = [])) ∧
    ((ntpdCheck ms err = true ↔ ∃ m, ntpdCollect ms err = some m ∧ m ≠ []) ∧
      (ntpdCollect ms err = none ↔ ms = [])) ∧
    ((nvCheck ms err = true ↔ ∃ m, nvCollect ms err = some m ∧ m ≠ []) ∧
      (nvCollect ms err = none ↔ ms = [])) := by
  by_cases h : ms = []
  · subst h
    simp [wmiCheck, wmiCollect, ntpdCheck, ntpdCollect, nvCheck, nvCollect, goLen]
  · have hl : ms.length ≠ 0 := fun hc => h (List.length_eq_zero.mp hc)
    simp [wmiCheck, wmiCollect, ntpdCheck, ntpdCollect, nvCheck, nvCollect, goLen, hl, h,
      Nat.pos_of_ne_zero hl]

/-- Claim C6: an EntityID is in the Entity Registry exactly when its charts
have been created: after any run of cycles from the fresh module state, every
chart obtained by instantiating the entity class's template with a cached id
is present in the Chart Set, and conversely every chart in the Chart Set
stems from the template of some cached id. -/
theorem registry_matches_chartset (tmpl : String → List ChartDef)
    (cycles : List (List String)) :
    RegistryCharted tmpl (syncCycles tmpl cycles initialState) ∧
    ChartsFromRegistry tmpl (syncCycles tmpl cycles initialState) :=
  ⟨registryCharted_syncCycles registryCharted_initial,
   chartsFromRegistry_syncCycles chartsFromRegistry_initial⟩

/-- Claim C7, as stated, is false: identifiers containing the separator `:`
are neither rejected nor escaped when the composite mssql key is built, so a
key need not split into exactly two components.  Concretely, instance `a:b`
with database `c` yields the key `a:b:c`, which splits into three. -/
theorem mssqlDBKey_separator_not_escaped :
    (List.splitOn ':' (mssqlDBKey ['a', ':', 'b'] ['c'])).length ≠ 2 := by
  decide

/-- Claim C7 (amended): a key of the mssql instance:database registry splits
on `:` into exactly the two components it was built from provided neither the
instance nor the database identifier contains the separator; the code itself
performs no rejection or escaping. -/
theorem mssqlDBKey_splits_two (inst db : List Char)
    (h1 : ':' ∉ inst) (h2 : ':' ∉ db) :
    List.splitOn ':' (mssqlDBKey inst db) = [inst, db] := by
  have hkey : mssqlDBKey inst db = [':'].intercalate [inst, db] := by
    simp [mssqlDBKey, List.intercalate]
  rw [hkey]
  refine List.splitOn_intercalate [inst, db] ':' ?_ (by simp)
  intro l hl
  rcases List.mem_cons.mp hl with rfl | hl
  · exact h1
  · rw [List.mem_singleton.mp hl]
    exact h2

/-- Witness for C7 (amended) at a concrete input: instance `a`, database
`b`. -/
theorem mssqlDBKey_splits_two_witness :
    (':' ∉ ['a']) ∧ (':' ∉ ['b']) ∧
    List.splitOn ':' (mssqlDBKey ['a'] ['b']) = [['a'], ['b']] :=
  ⟨by decide, by decide, mssqlDBKey_splits_two ['a'] ['b'] (by decide) (by decide)⟩

/-- Claim C8: a missing required connection parameter is fatal to module
initialization: the WMI module's `Init` returns false exactly when the URL is
unset (in particular on the default config `New()` builds, whose URL is
empty), and the NTPd module's `Init` returns false exactly when the address
is empty. -/
theorem init_requires_connection_param :
    (∀ cfg : WMIConfig, wmiInit cfg = true ↔ cfg.url ≠ "") ∧
    wmiInit wmiDefaultConfig = false ∧
    (∀ cfg : NTPdConfig, ntpdInit cfg = true ↔ cfg.address ≠ "") := by
  refine ⟨fun cfg => ?_, by decide, fun cfg => ?_⟩ <;> simp [wmiInit, ntpdInit]

/-- Claim C9: when the internal collection step reports an error alongside a
non-empty metrics map, the public `Collect()` of each module still returns
that map — the error is only logged. -/
theorem collect_returns_despite_error (ms : List (String × Int)) (e : String)
    (h : ms ≠ []) :
    wmiCollect ms (some e) = some ms ∧ ntpdCollect ms (some e) = some ms ∧
    nvCollect ms (some e) = some ms := by
  have hl : ms.length ≠ 0 := fun hc => h (List.length_eq_zero.mp hc)
  simp [wmiCollect, ntpdCollect, nvCollect, hl]

/-- Witness for C9 at a concrete input: a one-key snapshot delivered together
with a reported scrape error. -/
theorem collect_returns_despite_error_witness :
    ([(("up" : String), (1 : Int))] ≠ []) ∧
    (wmiCollect [("up", 1)] (some "scrape error") = some [("up", 1)] ∧
      ntpdCollect [("up", 1)] (some "scrape error") = some [("up", 1)] ∧
      nvCollect [("up", 1)] (some "scrape error") = some [("up", 1)]) :=
  ⟨by simp, collect_returns_despite_error _ _ (by simp)⟩

/-- Claim C10: `Cleanup()` on a freshly constructed, never-initialized module
does not fail: the WMI module's nil HTTP client and the NTPd module's nil
connection are guarded before being closed, and because NTPd nils its client
after closing it, a repeated `Cleanup()` is also safe. -/
theorem cleanup_fresh_module_safe :
    wmiCleanup wmiNewRuntime = .ok wmiNewRuntime ∧
    ntpdCleanup ntpdNewRuntime = .ok ntpdNewRuntime ∧
    ∀ s s' : NTPdRuntime, ntpdCleanup s = .ok s' → ntpdCleanup s' = .ok s' := by
  refine ⟨rfl, rfl, fun s s' h => ?_⟩
  obtain ⟨c⟩ := s
  have h' : (Except.ok (⟨none⟩ : NTPdRuntime) : Except GoPanic NTPdRuntime)
      = Except.ok s' := by
    cases c <;> exact h
  injection h' with h''
  rw [← h'']
  rfl

/-- Witness for C10's repeated-cleanup conjunct at a concrete input: a module
whose connection was open, cleaned up twice. -/
theorem cleanup_fresh_module_safe_witness :
    ntpdCleanup ⟨some ()⟩ = .ok ⟨none⟩ ∧ ntpdCleanup ⟨none⟩ = .ok ⟨none⟩ :=
  ⟨rfl, cleanup_fresh_module_safe.2.2 ⟨some ()⟩ ⟨none⟩ rfl⟩

end GoD
